import Mathlib

/-!
# LandingVKYC: a verification development

A shallow embedding of the three browser scripts of the repository

* `js/upload.js`: document selection, validation and upload,
* `js/face-detection.js`: the liveness heuristics (blink, head turn),
* `js/video-recording.js`: the recording state machine,

followed by theorems about them.  Module-level `let` variables and the DOM
elements a function touches become fields of an explicit state record; a
function that mutates them becomes a function from state to state.  Things
the browser decides (the outcome of a `fetch`, whether `MediaRecorder`
throws, when a timer fires) are explicit arguments or events.
-/

/-! ## `js/upload.js` -/

namespace Upload

/-- The fields of a browser `File` object that the script reads. -/
structure File where
  name : String
  type : String
  size : Nat
deriving DecidableEq, Repr

/-- The element `#uploadStatus`, as far as `showStatus` writes it. -/
structure StatusDiv where
  textContent : String
  className : String
  display : String
deriving DecidableEq, Repr

/-- The element `#nextBtn`. -/
structure Button where
  disabled : Bool
  innerHTML : String
deriving DecidableEq, Repr

/-- The callbacks this script hands to `setTimeout`. -/
inductive TimeoutAction where
  /-- From `showStatus`: `statusDiv.style.display = 'none'`. -/
  | hideStatus
  /-- From `uploadDocument`: `window.location.href = 'video-kyc.html'`. -/
  | redirectToVideo
deriving DecidableEq, Repr

/-- A `fetch` call made by `uploadDocument`: URL, method and the two form
fields. -/
structure Request where
  url : String
  method : String
  document : File
  documentType : String
deriving DecidableEq, Repr

/-- The fields of the parsed JSON response that the script reads, already
converted to strings as `sessionStorage.setItem` does. -/
structure UploadResult where
  sessionId : String
  documentPath : String
deriving DecidableEq, Repr

/-- What the network answers to the `fetch` in `uploadDocument`. -/
inductive FetchOutcome where
  /-- the promise returned by `fetch` rejects -/
  | rejected
  /-- a response arrives; `json = none` when `response.json()` rejects -/
  | response (ok : Bool) (statusText : String) (json : Option UploadResult)
deriving DecidableEq, Repr

/-- Module variables of `upload.js` together with the DOM and browser state
its functions write. -/
structure State where
  selectedFile : Option File
  selectedDocType : String
  uploadStatus : StatusDiv
  nextBtn : Button
  /-- files handed to `FileReader.readAsDataURL` by `displayPreview` -/
  previewReads : List File
  /-- The contents of `sessionStorage`, as a list of key/value pairs -/
  sessionStorage : List (String × String)
  /-- the `fetch` calls made so far -/
  requests : List Request
  /-- pending `setTimeout` callbacks with their delay in milliseconds -/
  timeouts : List (Nat × TimeoutAction)
deriving DecidableEq, Repr

def API_BASE_URL : String := "http://localhost:8080/api"

/-- The state when the script is loaded: `selectedFile = null`,
`selectedDocType = 'aadhaar'`; the page's initial markup is a parameter. -/
def initialState (status : StatusDiv) (btn : Button) : State :=
  { selectedFile := none
    selectedDocType := "aadhaar"
    uploadStatus := status
    nextBtn := btn
    previewReads := []
    sessionStorage := []
    requests := []
    timeouts := [] }

/-- The method `Storage.setItem`: replace the value of an existing key, else append. -/
def setItem : List (String × String) → String → String → List (String × String)
  | [], k, v => [(k, v)]
  | (k', v') :: rest, k, v =>
    if k' = k then (k, v) :: rest else (k', v') :: setItem rest k v

/-- The method `Storage.getItem`. -/
def getItem : List (String × String) → String → Option String
  | [], _ => none
  | (k', v') :: rest, k => if k' = k then some v' else getItem rest k

/-- The function `showStatus(message, type)`. -/
def showStatus (s : State) (message type : String) : State :=
  let s1 := { s with uploadStatus :=
    { textContent := message
      className := "status-message " ++ type
      display := "block" } }
  if type = "success" then
    { s1 with timeouts := s1.timeouts ++ [(3000, TimeoutAction.hideStatus)] }
  else s1

/-- The function `displayPreview(file)`: it starts an asynchronous read of the file. -/
def displayPreview (s : State) (file : File) : State :=
  { s with previewReads := s.previewReads ++ [file] }

/-- The constant `validTypes` of `handleFile`. -/
def validTypes : List String := ["image/jpeg", "image/jpg", "image/png"]

/-- The constant `maxSize` of `handleFile` (commented `5MB in bytes`). -/
def maxSize : Nat := 5 * 1024 * 1024

/-- The function `handleFile(file)`. -/
def handleFile (s : State) (file : File) : State :=
  if ¬ validTypes.contains file.type then
    showStatus s "Please upload a valid image file (JPG, JPEG, or PNG)" "error"
  else if file.size > maxSize then
    showStatus s "File size must be less than 5MB" "error"
  else
    let s1 := { s with selectedFile := some file }
    let s2 := displayPreview s1 file
    { s2 with nextBtn := { s2.nextBtn with disabled := false } }

/-- The `catch` block of `uploadDocument`. -/
def uploadDocumentCatch (s : State) : State :=
  let s1 := showStatus s "Upload failed. Please try again." "error"
  { s1 with nextBtn := { disabled := false, innerHTML := "Next: Video Recording →" } }

/-- The function `uploadDocument()`, run to completion against the network's answer
`net`.  The two `await`s are taken in one go: no other handler of this
script writes `sessionStorage`, the status line or the request log. -/
def uploadDocument (s : State) (net : FetchOutcome) : State :=
  match s.selectedFile with
  | none => showStatus s "Please select a document to upload" "error"
  | some file =>
    let s1 := { s with nextBtn := { disabled := true, innerHTML := "⏳ Uploading..." } }
    let s2 := showStatus s1 "Uploading document..." "loading"
    let s3 := { s2 with requests := s2.requests ++
      [{ url := API_BASE_URL ++ "/upload-document"
         method := "POST"
         document := file
         documentType := s2.selectedDocType }] }
    match net with
    | FetchOutcome.rejected => uploadDocumentCatch s3
    | FetchOutcome.response ok _ json =>
      if ¬ ok then uploadDocumentCatch s3
      else
        match json with
        | none => uploadDocumentCatch s3
        | some result =>
          let st1 := setItem s3.sessionStorage "kycSessionId" result.sessionId
          let st2 := setItem st1 "documentType" s3.selectedDocType
          let st3 := setItem st2 "documentPath" result.documentPath
          let s4 := { s3 with sessionStorage := st3 }
          let s5 := showStatus s4 "Document uploaded successfully! Redirecting..." "success"
          { s5 with timeouts := s5.timeouts ++ [(1500, TimeoutAction.redirectToVideo)] }

end Upload

/-! ## `js/face-detection.js`

Numbers are elements of any type `α` that has the arithmetic the script
uses: `+`, `-`, `*`, `/`, a square `d ^ 2` for `Math.pow(d, 2)`, decimal
literals and a decidable `<`; `Math.sqrt` is passed as the argument `sqrt`.
The definitions assume no law of arithmetic, so they can be read at the
IEEE doubles of the script (`Float` with `Float.sqrt`) as well as at the
reals (`ℝ` with `Real.sqrt`).  Statements that hold for every such `α` hold
for the script's doubles, rounding, infinities and `NaN` included; statements
made at `ℝ` are statements of exact real arithmetic, where a quotient by zero
is `0`, and carry the hypothesis that the denominator's two points differ.
A check element of the page, when present, is taken to contain its
`.check-status` span. -/

namespace FaceDetection

/-- A landmark point `{ x, y }`. -/
structure Point (α : Type) where
  x : α
  y : α
deriving DecidableEq

/-- The landmark groups of one detection that the script asks for:
`getLeftEye()`, `getRightEye()`, `getNose()`, `getJawOutline()`. -/
structure Landmarks (α : Type) where
  getLeftEye : List (Point α)
  getRightEye : List (Point α)
  getNose : List (Point α)
  getJawOutline : List (Point α)

/-- The object `livenessChecks`. -/
structure LivenessChecks where
  faceDetected : Bool
  blinkDetected : Bool
  turnedLeft : Bool
  turnedRight : Bool
deriving DecidableEq, Repr

/-- The property names of `livenessChecks`. -/
inductive CheckName where
  | faceDetected
  | blinkDetected
  | turnedLeft
  | turnedRight
deriving DecidableEq, Repr

/-- The object `previousEyeState` (`true` means open). -/
structure EyeState where
  left : Bool
  right : Bool
deriving DecidableEq, Repr

/-- A check's list item: the text of its `.check-status` span and its
background colour. -/
structure CheckElement where
  statusText : String
  background : String
deriving DecidableEq, Repr

/-- The arrow function that `checkBlink` passes to `setTimeout`, as the
values of the two `const`s it closes over. -/
structure BlinkCallback where
  leftClosed : Bool
  rightClosed : Bool
deriving DecidableEq, Repr

/-- Module variables of `face-detection.js`, the four check elements of the
page (absent when `getElementById` finds none) and the pending timeouts. -/
structure State (α : Type) where
  livenessChecks : LivenessChecks
  previousEyeState : EyeState
  headPoseHistory : List α
  checkElements : CheckName → Option CheckElement
  /-- pending `setTimeout` callbacks with their delay in milliseconds -/
  timeouts : List (Nat × BlinkCallback)

/-- The state when the script is loaded. -/
def initialState {α : Type} (elements : CheckName → Option CheckElement) : State α :=
  { livenessChecks :=
      { faceDetected := false, blinkDetected := false, turnedLeft := false, turnedRight := false }
    previousEyeState := { left := true, right := true }
    headPoseHistory := []
    checkElements := elements
    timeouts := [] }

/-- The assignment `livenessChecks[checkName] = passed`. -/
def LivenessChecks.set (c : LivenessChecks) (checkName : CheckName) (passed : Bool) :
    LivenessChecks :=
  match checkName with
  | CheckName.faceDetected => { c with faceDetected := passed }
  | CheckName.blinkDetected => { c with blinkDetected := passed }
  | CheckName.turnedLeft => { c with turnedLeft := passed }
  | CheckName.turnedRight => { c with turnedRight := passed }

/-- The list `Object.values(livenessChecks)`, in insertion order. -/
def LivenessChecks.values (c : LivenessChecks) : List Bool :=
  [c.faceDetected, c.blinkDetected, c.turnedLeft, c.turnedRight]

/-- The function `updateLivenessCheck(checkName, passed)`: the assignment, then the
update of the check's element when the page has one. -/
def updateLivenessCheck {α : Type} (s : State α) (checkName : CheckName) (passed : Bool) : State α :=
  let s1 := { s with livenessChecks := s.livenessChecks.set checkName passed }
  match s1.checkElements checkName with
  | some _ =>
    let el : CheckElement :=
      if passed then { statusText := "✅", background := "#d1fae5" }
      else { statusText := "⏳", background := "white" }
    { s1 with checkElements := Function.update s1.checkElements checkName (some el) }
  | none => s1

/-- The body of the arrow function scheduled by `checkBlink`: it tests the
`const`s `leftClosed` and `rightClosed` of the call that scheduled it. -/
def blinkTimeout {α : Type} (s : State α) (cb : BlinkCallback) : State α :=
  if !cb.leftClosed && !cb.rightClosed then
    updateLivenessCheck s CheckName.blinkDetected true
  else s

section Numeric

variable {α : Type}

/-- The function `distance(p1, p2)`. -/
def distance [Add α] [Sub α] [HPow α ℕ α] (sqrt : α → α) (p1 p2 : Point α) : α :=
  sqrt ((p2.x - p1.x) ^ 2 + (p2.y - p1.y) ^ 2)

/-- The function `calculateEyeAspectRatio(eye)`; `none` when one of `points[0..5]` is
`undefined` (the script then throws a `TypeError`). -/
def calculateEyeAspectRatio [Add α] [Sub α] [Mul α] [Div α] [HPow α ℕ α] [OfNat α 2]
    (sqrt : α → α) (eye : List (Point α)) : Option α :=
  let points : List (Point α) := eye.map (fun p => { x := p.x, y := p.y })
  match points[1]?, points[5]?, points[2]?, points[4]?, points[0]?, points[3]? with
  | some q1, some q5, some q2, some q4, some q0, some q3 =>
    let v1 := distance sqrt q1 q5
    let v2 := distance sqrt q2 q4
    let h := distance sqrt q0 q3
    let ear := (v1 + v2) / (2 * h)
    some ear
  | _, _, _, _, _, _ => none

/-- The constant `EAR_THRESHOLD` of `checkBlink`. -/
def EAR_THRESHOLD [OfScientific α] : α := 0.2

/-- The function `checkBlink(landmarks)` up to its return; the callback it may schedule
is left pending in `timeouts`.  `none` when the script throws. -/
def checkBlink [Add α] [Sub α] [Mul α] [Div α] [HPow α ℕ α] [OfNat α 2] [OfScientific α]
    [LT α] [∀ a b : α, Decidable (a < b)]
    (sqrt : α → α) (s : State α) (landmarks : Landmarks α) : Option (State α) :=
  match calculateEyeAspectRatio sqrt landmarks.getLeftEye,
        calculateEyeAspectRatio sqrt landmarks.getRightEye with
  | some leftEAR, some rightEAR =>
    let leftClosed : Bool := decide (leftEAR < EAR_THRESHOLD)
    let rightClosed : Bool := decide (rightEAR < EAR_THRESHOLD)
    let s1 :=
      if s.previousEyeState.left && s.previousEyeState.right && leftClosed && rightClosed then
        { s with timeouts := s.timeouts ++
            [(200, { leftClosed := leftClosed, rightClosed := rightClosed })] }
      else s
    some { s1 with previousEyeState := { left := !leftClosed, right := !rightClosed } }
  | _, _ => none

/-- The function `checkHeadPose(landmarks)`; `none` when `nose[3]`, `jaw[0]` or `jaw[16]`
is `undefined` (the script then throws before it changes anything). -/
def checkHeadPose [Add α] [Sub α] [Div α] [HPow α ℕ α] [OfScientific α]
    [LT α] [∀ a b : α, Decidable (a < b)]
    (sqrt : α → α) (s : State α) (landmarks : Landmarks α) : Option (State α) :=
  let nose := landmarks.getNose
  let jaw := landmarks.getJawOutline
  match nose[3]?, jaw[0]?, jaw[16]? with
  | some noseTip, some leftJaw, some rightJaw =>
    let faceWidth := distance sqrt leftJaw rightJaw
    let noseToLeft := distance sqrt noseTip leftJaw
    let ratio := noseToLeft / faceWidth
    let pushed := s.headPoseHistory ++ [ratio]
    let history := if pushed.length > 10 then pushed.tail else pushed
    let s1 := { s with headPoseHistory := history }
    let s2 :=
      if decide (ratio < 0.4) && !s1.livenessChecks.turnedLeft then
        updateLivenessCheck s1 CheckName.turnedLeft true
      else s1
    let s3 :=
      if decide (ratio > 0.6) && !s2.livenessChecks.turnedRight then
        updateLivenessCheck s2 CheckName.turnedRight true
      else s2
    some s3
  | _, _, _ => none

/-- What the detection loop delivers: a frame with the landmarks of the
first detected face, a frame without a face, or the firing of the oldest
pending timeout. -/
inductive Event (α : Type) where
  | face (landmarks : Landmarks α)
  | noFace
  | timeout

/-- The liveness part of `processDetections`, under the `try`/`catch` of the
detection loop: an exception ends the frame and keeps what was written
before it. -/
def processDetections [Add α] [Sub α] [Mul α] [Div α] [HPow α ℕ α] [OfNat α 2]
    [OfScientific α] [LT α] [∀ a b : α, Decidable (a < b)]
    (sqrt : α → α) (s : State α) (landmarks : Landmarks α) : State α :=
  let s1 := updateLivenessCheck s CheckName.faceDetected true
  match checkBlink sqrt s1 landmarks with
  | none => s1
  | some s2 =>
    match checkHeadPose sqrt s2 landmarks with
    | none => s2
    | some s3 => s3

/-- One event of the detection loop. -/
def step [Add α] [Sub α] [Mul α] [Div α] [HPow α ℕ α] [OfNat α 2]
    [OfScientific α] [LT α] [∀ a b : α, Decidable (a < b)]
    (sqrt : α → α) (s : State α) : Event α → State α
  | Event.face landmarks => processDetections sqrt s landmarks
  | Event.noFace => updateLivenessCheck s CheckName.faceDetected false
  | Event.timeout =>
    match s.timeouts with
    | [] => s
    | (_, cb) :: rest => blinkTimeout { s with timeouts := rest } cb

/-- A sequence of events, from left to right. -/
def run [Add α] [Sub α] [Mul α] [Div α] [HPow α ℕ α] [OfNat α 2]
    [OfScientific α] [LT α] [∀ a b : α, Decidable (a < b)]
    (sqrt : α → α) (s : State α) (events : List (Event α)) : State α :=
  events.foldl (step sqrt) s

end Numeric

/-- Where an object of the shape of `livenessChecks` lives: the module
variable itself, or the `n`-th object created by a spread
`{ ...livenessChecks }`. -/
inductive Loc where
  | moduleChecks
  | fresh (n : Nat)
deriving DecidableEq, Repr

/-- The object returned by `getLivenessResults`; `checks` refers to an
object. -/
structure LivenessResults where
  allPassed : Bool
  checks : Loc
deriving DecidableEq, Repr

/-- The function `getLivenessResults()`: `heap` holds the objects created by earlier
calls; the spread creates a new one, filled with the current properties. -/
def getLivenessResults {α : Type} (s : State α) (heap : List LivenessChecks) :
    LivenessResults × List LivenessChecks :=
  ({ allPassed := s.livenessChecks.values.all (fun check => check == true)
     checks := Loc.fresh heap.length },
   heap ++ [s.livenessChecks])

/-- Reading the object at a location. -/
def readChecks {α : Type} (s : State α) (heap : List LivenessChecks) : Loc → Option LivenessChecks
  | Loc.moduleChecks => some s.livenessChecks
  | Loc.fresh n => heap[n]?

/-- The assignment `obj[checkName] = value` to the object at a location:
what a caller does when it changes an object it holds. -/
def writeChecks {α : Type} (s : State α) (heap : List LivenessChecks) (loc : Loc)
    (checkName : CheckName) (value : Bool) : State α × List LivenessChecks :=
  match loc with
  | Loc.moduleChecks =>
    ({ s with livenessChecks := s.livenessChecks.set checkName value }, heap)
  | Loc.fresh n =>
    (s, heap.modify (fun c => c.set checkName value) n)

end FaceDetection

/-! ## `js/video-recording.js` -/

namespace VideoRecording

/-- The `state` attribute of a `MediaRecorder`, as far as the script drives
it. -/
inductive RecorderState where
  | inactive
  | recording
deriving DecidableEq, Repr

/-- A `MediaRecorder` object: the options it was built with, the timeslice
given to `start` and its state. -/
structure MediaRecorder where
  mimeType : String
  videoBitsPerSecond : Nat
  timeslice : Option Nat
  state : RecorderState
deriving DecidableEq, Repr

/-- The element `#statusMessage`, as far as `showStatusMessage` writes it. -/
structure StatusDiv where
  textContent : String
  className : String
  display : String
deriving DecidableEq, Repr

/-- The elements of the page that the recording functions write. -/
structure Page where
  startCameraBtnDisplay : String
  startRecordingBtnDisplay : String
  startRecordingBtnDisabled : Bool
  stopRecordingBtnDisplay : String
  recordingIndicatorDisplay : String
  timerDisplay : String
  timerText : String
  instructionsDisplay : String
  livenessChecksDisplay : String
  submitBtnDisabled : Bool
  submitBtnInnerHTML : String
  statusMessage : StatusDiv
deriving DecidableEq, Repr

/-- What the browser answers when `startRecording` builds and starts a
recorder. -/
structure RecorderEnv where
  /-- The answer of `MediaRecorder.isTypeSupported` -/
  isTypeSupported : String → Bool
  /-- Whether `new MediaRecorder(...)` throws -/
  constructorThrows : Bool
  /-- Whether `mediaRecorder.start(100)` throws -/
  startThrows : Bool

/-- Module variables of `video-recording.js`, the page, the clock
(`Date.now()`, in milliseconds) and the pending auto-stop timeouts. -/
structure State where
  /-- Whether `videoStream` is set (the stream itself is the browser's) -/
  videoStream : Bool
  mediaRecorder : Option MediaRecorder
  /-- sizes of the recorded chunks -/
  recordedChunks : List Nat
  recordingStartTime : Option Nat
  /-- the id held by `timerInterval`, `none` for `null` -/
  timerInterval : Option Nat
  isRecording : Bool
  recordingDuration : Nat
  /-- The blob `window.recordedVideoBlob`, as the sizes of its chunks -/
  recordedVideoBlob : Option (List Nat)
  page : Page
  now : Nat
  /-- due times of the pending callbacks scheduled by `startRecording` -/
  timeouts : List Nat
  /-- ids of the running intervals created by `startTimer` -/
  intervals : List Nat
  /-- the id the browser hands out next (ids are positive) -/
  nextTimerId : Nat
deriving DecidableEq, Repr

/-- The constant `MAX_RECORDING_DURATION` (seconds). -/
def MAX_RECORDING_DURATION : Nat := 30

/-- The state when the script is loaded, on a page `page` at time `now`. -/
def initialState (page : Page) (now : Nat) : State :=
  { videoStream := false
    mediaRecorder := none
    recordedChunks := []
    recordingStartTime := none
    timerInterval := none
    isRecording := false
    recordingDuration := 0
    recordedVideoBlob := none
    page := page
    now := now
    timeouts := []
    intervals := []
    nextTimerId := 1 }

/-- The function `showStatusMessage(message, type)`. -/
def showStatusMessage (s : State) (message type : String) : State :=
  { s with page := { s.page with statusMessage :=
      { textContent := message
        className := "status-message " ++ type
        display := "block" } } }

/-- The function `startCamera()` once `getUserMedia` has settled: `granted` tells whether
it resolved with a stream. -/
def startCamera (s : State) (granted : Bool) : State :=
  if granted then { s with videoStream := true }
  else showStatusMessage s "Cannot access camera. Please grant camera permissions." "error"

/-- The handler `videoElement.onloadedmetadata` installed by `startCamera`. -/
def onloadedmetadata (s : State) : State :=
  let s1 := { s with page := { s.page with
    startCameraBtnDisplay := "none", startRecordingBtnDisabled := false } }
  showStatusMessage s1 "Camera started. Click \"Start Recording\" when ready." "success"

/-- The function `startTimer()`. -/
def startTimer (s : State) : State :=
  { s with
    recordingDuration := 0
    timerInterval := some s.nextTimerId
    intervals := s.intervals ++ [s.nextTimerId]
    nextTimerId := s.nextTimerId + 1 }

/-- The expression `String(n).padStart(2, '0')`. -/
def padStart2 (n : Nat) : String :=
  let str := toString n
  if str.length < 2 then "0" ++ str else str

/-- The arrow function that `startTimer` passes to `setInterval`. -/
def timerTick (s : State) : State :=
  let d := s.recordingDuration + 1
  let minutes := d / 60
  let seconds := d % 60
  { s with recordingDuration := d
           page := { s.page with timerText := padStart2 minutes ++ ":" ++ padStart2 seconds } }

/-- The function `stopTimer()`; timer ids are positive, so `if (timerInterval)`
tests for `null`. -/
def stopTimer (s : State) : State :=
  match s.timerInterval with
  | some id => { s with intervals := s.intervals.erase id, timerInterval := none }
  | none => s

/-- The `mimeType` that `startRecording` settles on. -/
def chooseMimeType (isTypeSupported : String → Bool) : String :=
  if ¬ isTypeSupported "video/webm;codecs=vp9" then
    if ¬ isTypeSupported "video/webm;codecs=vp8" then "video/webm"
    else "video/webm;codecs=vp8"
  else "video/webm;codecs=vp9"

/-- The `catch` block of `startRecording`. -/
def startRecordingCatch (s : State) : State :=
  showStatusMessage s "Failed to start recording" "error"

/-- The function `startRecording()`. -/
def startRecording (s : State) (env : RecorderEnv) : State :=
  if ¬ s.videoStream then showStatusMessage s "Please start camera first" "error"
  else
    let s1 := { s with recordedChunks := [] }
    if env.constructorThrows then startRecordingCatch s1
    else
      let recorder : MediaRecorder :=
        { mimeType := chooseMimeType env.isTypeSupported
          videoBitsPerSecond := 2500000
          timeslice := none
          state := RecorderState.inactive }
      let s2 := { s1 with mediaRecorder := some recorder }
      if env.startThrows then startRecordingCatch s2
      else
        let s3 := { s2 with
          mediaRecorder := some { recorder with
            timeslice := some 100, state := RecorderState.recording }
          isRecording := true
          recordingStartTime := some s2.now }
        let s4 := { s3 with page := { s3.page with
          startRecordingBtnDisplay := "none"
          stopRecordingBtnDisplay := "inline-flex"
          recordingIndicatorDisplay := "flex"
          timerDisplay := "block"
          instructionsDisplay := "none"
          livenessChecksDisplay := "block" } }
        let s5 := startTimer s4
        let s6 := { s5 with timeouts := s5.timeouts ++ [s5.now + MAX_RECORDING_DURATION * 1000] }
        showStatusMessage s6 "Recording started..." "loading"

/-- The function `stopRecording()`; `mediaRecorder.stop()` leaves the recorder
inactive. -/
def stopRecording (s : State) : State :=
  match s.mediaRecorder with
  | none => s
  | some recorder =>
    if ¬ s.isRecording then s
    else
      let s1 := { s with
        isRecording := false
        mediaRecorder := some { recorder with state := RecorderState.inactive } }
      let s2 := stopTimer s1
      let s3 := { s2 with page := { s2.page with
        stopRecordingBtnDisplay := "none"
        recordingIndicatorDisplay := "none"
        timerDisplay := "none"
        submitBtnDisabled := false } }
      showStatusMessage s3 "Recording completed! Click \"Submit\" to verify." "success"

/-- The arrow function that `startRecording` passes to `setTimeout`. -/
def autoStop (s : State) : State :=
  if s.isRecording then stopRecording s else s

/-- The handler `mediaRecorder.ondataavailable`, for a chunk of `size` bytes. -/
def ondataavailable (s : State) (size : Nat) : State :=
  if size > 0 then { s with recordedChunks := s.recordedChunks ++ [size] } else s

/-- The function `handleRecordingComplete()`, the handler `mediaRecorder.onstop`. -/
def handleRecordingComplete (s : State) : State :=
  if s.recordedChunks.length = 0 then showStatusMessage s "No recording data available" "error"
  else { s with recordedVideoBlob := some s.recordedChunks }

/-- What can happen on the page. -/
inductive Event where
  /-- A call of `startCamera()` and the answer of `getUserMedia` -/
  | startCamera (granted : Bool)
  | loadedmetadata
  /-- A call of `startRecording()` and the browser's answer -/
  | startRecording (env : RecorderEnv)
  | stopRecording
  /-- the event loop runs the oldest pending timeout, if it is due -/
  | timeoutFires
  /-- the one-second interval with this id fires -/
  | intervalTick (id : Nat)
  | dataavailable (size : Nat)
  | recorderStop
  /-- the clock advances by `ms` milliseconds -/
  | elapse (ms : Nat)

/-- One step of the recording state machine.  A timeout runs no earlier
than its due time. -/
def step (s : State) : Event → State
  | Event.startCamera granted => startCamera s granted
  | Event.loadedmetadata => onloadedmetadata s
  | Event.startRecording env => startRecording s env
  | Event.stopRecording => stopRecording s
  | Event.timeoutFires =>
    match s.timeouts with
    | [] => s
    | due :: rest => if due ≤ s.now then autoStop { s with timeouts := rest } else s
  | Event.intervalTick id => if id ∈ s.intervals then timerTick s else s
  | Event.dataavailable size => ondataavailable s size
  | Event.recorderStop => handleRecordingComplete s
  | Event.elapse ms => { s with now := s.now + ms }

/-- A sequence of events, from left to right. -/
def run (s : State) (events : List Event) : State :=
  events.foldl step s

end VideoRecording

/-! ## Example inputs and invariants -/


namespace Upload

/-- A fresh page: nothing selected, the Next button disabled, no status. -/
def exampleState : State :=
  initialState { textContent := "", className := "status-message", display := "none" }
    { disabled := true, innerHTML := "Next: Video Recording →" }

/-- A PNG of 1000 bytes. -/
def smallPng : File := { name := "id.png", type := "image/png", size := 1000 }

/-- A PNG of exactly `5 * 1024 * 1024` bytes. -/
def fiveMiBPng : File := { name := "id.png", type := "image/png", size := 5242880 }

/-- A PNG of `5 * 1024 * 1024 + 1` bytes. -/
def overSizePng : File := { name := "id.png", type := "image/png", size := 5242881 }

/-- The page after the 1000-byte PNG was chosen. -/
def selectedState : State := handleFile exampleState smallPng

/-- A response with status 500 and no usable body. -/
def serverError : FetchOutcome := FetchOutcome.response false "Internal Server Error" none

end Upload

namespace FaceDetection

section Examples

variable {α : Type} [LinearOrderedField α]

/-- An open eye: width 10, both lid distances 4. -/
def openEye : List (Point α) :=
  [⟨0, 0⟩, ⟨3, 2⟩, ⟨7, 2⟩, ⟨10, 0⟩, ⟨7, -2⟩, ⟨3, -2⟩]

/-- A closed eye: width 10, both lid distances 1. -/
def closedEye : List (Point α) :=
  [⟨0, 0⟩, ⟨3, 1⟩, ⟨7, 1⟩, ⟨10, 0⟩, ⟨7, 0⟩, ⟨3, 0⟩]

/-- A jaw outline of 17 points from `(0, 0)` to `(10, 0)`. -/
def exampleJaw : List (Point α) :=
  [⟨0, 0⟩, ⟨0, 1⟩, ⟨0, 2⟩, ⟨1, 3⟩, ⟨1, 4⟩, ⟨2, 5⟩, ⟨3, 6⟩, ⟨4, 7⟩, ⟨5, 7⟩,
   ⟨6, 7⟩, ⟨7, 6⟩, ⟨8, 5⟩, ⟨9, 4⟩, ⟨9, 3⟩, ⟨10, 2⟩, ⟨10, 1⟩, ⟨10, 0⟩]

/-- A nose of 9 points whose point 3 lies at `(x, 0)`. -/
def exampleNose (x : α) : List (Point α) :=
  [⟨5, -4⟩, ⟨5, -3⟩, ⟨5, -2⟩, ⟨x, 0⟩, ⟨3, 1⟩, ⟨4, 1⟩, ⟨5, 1⟩, ⟨6, 1⟩, ⟨7, 1⟩]

/-- A face looking straight ahead with both eyes open. -/
def openFace : Landmarks α :=
  { getLeftEye := openEye, getRightEye := openEye
    getNose := exampleNose 5, getJawOutline := exampleJaw }

/-- The same face with both eyes closed. -/
def closedFace : Landmarks α :=
  { getLeftEye := closedEye, getRightEye := closedEye
    getNose := exampleNose 5, getJawOutline := exampleJaw }

/-- Eyes open, then closed, then open again, the pending timeout run after
each frame. -/
def blinkFrames : List (Event α) :=
  [Event.face openFace, Event.timeout, Event.face closedFace, Event.timeout,
   Event.face openFace, Event.timeout]

end Examples

/-- On doubles, `Math.pow(d, n)` for a whole exponent `n`. -/
instance floatNatPow : HPow Float ℕ Float where
  hPow d n := Float.pow d (Float.ofNat n)

/-- A face, in doubles, whose `nose[3] = (2, 8)`, `jaw[0] = (0, 0)` and
`jaw[16] = (5, 20)` put the exact ratio on the threshold `0.4`. -/
def thresholdFace : Landmarks Float :=
  { getLeftEye := [⟨1, 6⟩, ⟨1.5, 5.5⟩, ⟨2, 5.5⟩, ⟨2.5, 6⟩, ⟨2, 6.5⟩, ⟨1.5, 6.5⟩]
    getRightEye := [⟨3, 9⟩, ⟨3.5, 8.5⟩, ⟨4, 8.5⟩, ⟨4.5, 9⟩, ⟨4, 9.5⟩, ⟨3.5, 9.5⟩]
    getNose := [⟨2, 5⟩, ⟨2, 6⟩, ⟨2, 7⟩, ⟨2, 8⟩, ⟨1, 9⟩, ⟨1.5, 9⟩, ⟨2, 9⟩, ⟨2.5, 9⟩, ⟨3, 9⟩]
    getJawOutline :=
      [⟨0, 0⟩, ⟨0, 2⟩, ⟨0, 4⟩, ⟨0, 6⟩, ⟨0, 8⟩, ⟨0, 10⟩, ⟨1, 12⟩, ⟨2, 14⟩, ⟨3, 16⟩,
       ⟨4, 17⟩, ⟨5, 18⟩, ⟨6, 19⟩, ⟨6, 20⟩, ⟨6, 21⟩, ⟨6, 22⟩, ⟨5, 21⟩, ⟨5, 20⟩] }

/-- Every pending callback was scheduled with both eyes closed. -/
def AllClosed {α : Type} (s : State α) : Prop :=
  ∀ p ∈ s.timeouts, p.2.leftClosed = true ∧ p.2.rightClosed = true

/-- A page without the check elements. -/
def noElements : CheckName → Option CheckElement := fun _ => none

end FaceDetection

namespace VideoRecording

/-- The page before the camera is started. -/
def examplePage : Page :=
  { startCameraBtnDisplay := "inline-flex"
    startRecordingBtnDisplay := "inline-flex"
    startRecordingBtnDisabled := true
    stopRecordingBtnDisplay := "none"
    recordingIndicatorDisplay := "none"
    timerDisplay := "none"
    timerText := "00:00"
    instructionsDisplay := "block"
    livenessChecksDisplay := "none"
    submitBtnDisabled := true
    submitBtnInnerHTML := "Submit for Verification →"
    statusMessage := { textContent := "", className := "status-message", display := "none" } }

/-- A browser that supports every type and throws nowhere. -/
def supportiveEnv : RecorderEnv :=
  { isTypeSupported := fun _ => true, constructorThrows := false, startThrows := false }

/-- The camera is started and a recording begun, then 30 seconds pass. -/
def recordingEvents : List Event :=
  [Event.startCamera true, Event.loadedmetadata, Event.startRecording supportiveEnv,
   Event.elapse 30000]

/-- While recording, a recorder exists. -/
def RecorderPresent (s : State) : Prop :=
  s.isRecording = true → ∃ recorder, s.mediaRecorder = some recorder

end VideoRecording

/-! ## Theorems: `js/upload.js` -/

namespace Upload

theorem handleFile_valid (s : State) (file : File)
    (ht : file.type ∈ validTypes) (hs : file.size ≤ maxSize) :
    handleFile s file =
      { s with selectedFile := some file
               previewReads := s.previewReads ++ [file]
               nextBtn := { s.nextBtn with disabled := false } } := by
  have hs' : ¬ file.size > maxSize := Nat.not_lt.mpr hs
  simp [handleFile, displayPreview, ht, hs']

theorem handleFile_badType (s : State) (file : File) (ht : file.type ∉ validTypes) :
    handleFile s file =
      showStatus s "Please upload a valid image file (JPG, JPEG, or PNG)" "error" := by
  simp [handleFile, ht]

theorem handleFile_tooLarge (s : State) (file : File)
    (ht : file.type ∈ validTypes) (hs : maxSize < file.size) :
    handleFile s file = showStatus s "File size must be less than 5MB" "error" := by
  simp [handleFile, ht, hs]

theorem showStatus_error (s : State) (m : String) :
    showStatus s m "error" =
      { s with uploadStatus :=
          { textContent := m, className := "status-message error", display := "block" } } := by
  simp [showStatus]

/-- A file of a wrong type or of more than `maxSize` bytes is rejected: the
selection, the previews and the button stay, and the status shows the error,
the file-type message first. -/
theorem handleFile_rejected (s : State) (file : File)
    (h : ¬ (file.type ∈ validTypes ∧ file.size ≤ maxSize)) :
    (handleFile s file).selectedFile = s.selectedFile ∧
    (handleFile s file).previewReads = s.previewReads ∧
    (handleFile s file).nextBtn = s.nextBtn ∧
    (handleFile s file).uploadStatus =
      { textContent :=
          if file.type ∈ validTypes then "File size must be less than 5MB"
          else "Please upload a valid image file (JPG, JPEG, or PNG)"
        className := "status-message error"
        display := "block" } := by
  by_cases ht : file.type ∈ validTypes
  · have hs : maxSize < file.size := by
      by_contra hc
      exact h ⟨ht, Nat.not_lt.mp hc⟩
    rw [handleFile_tooLarge s file ht hs, showStatus_error]
    simp [ht]
  · rw [handleFile_badType s file ht, showStatus_error]
    simp [ht]

/-- C1: `handleFile` accepts a file (makes it `selectedFile`, starts its
preview and enables the Next button, leaving the status line alone) if and
only if its type is one of the three image types and its size is at most
`5*1024*1024`; otherwise it keeps the selection and the button and shows an
`error` status, the file-type message before the file-size message.  For a
file that is not already the selected one, `selectedFile` and the button
alone tell acceptance from rejection. -/
theorem handleFile_accepts_iff (s : State) (file : File) :
    (file.type ∈ ["image/jpeg", "image/jpg", "image/png"] ∧ file.size ≤ 5 * 1024 * 1024 →
      (handleFile s file).selectedFile = some file ∧
      (handleFile s file).nextBtn.disabled = false ∧
      (handleFile s file).uploadStatus = s.uploadStatus) ∧
    (¬ (file.type ∈ ["image/jpeg", "image/jpg", "image/png"] ∧ file.size ≤ 5 * 1024 * 1024) →
      (handleFile s file).selectedFile = s.selectedFile ∧
      (handleFile s file).nextBtn = s.nextBtn ∧
      (handleFile s file).uploadStatus =
        { textContent :=
            if file.type ∈ ["image/jpeg", "image/jpg", "image/png"] then
              "File size must be less than 5MB"
            else "Please upload a valid image file (JPG, JPEG, or PNG)"
          className := "status-message error"
          display := "block" }) ∧
    (((handleFile s file).selectedFile = some file ∧
        (handleFile s file).nextBtn.disabled = false ∧
        (handleFile s file).previewReads = s.previewReads ++ [file]) ↔
      (file.type ∈ ["image/jpeg", "image/jpg", "image/png"] ∧
        file.size ≤ 5 * 1024 * 1024)) ∧
    (s.selectedFile ≠ some file →
      (((handleFile s file).selectedFile = some file ∧
          (handleFile s file).nextBtn.disabled = false) ↔
        (file.type ∈ ["image/jpeg", "image/jpg", "image/png"] ∧
          file.size ≤ 5 * 1024 * 1024))) := by
  have hvt : validTypes = ["image/jpeg", "image/jpg", "image/png"] := rfl
  have hms : maxSize = 5 * 1024 * 1024 := rfl
  rw [← hvt, ← hms]
  have hrej : ¬ (file.type ∈ validTypes ∧ file.size ≤ maxSize) →
      (handleFile s file).selectedFile = s.selectedFile ∧
      (handleFile s file).nextBtn = s.nextBtn ∧
      (handleFile s file).uploadStatus =
        { textContent :=
            if file.type ∈ validTypes then "File size must be less than 5MB"
            else "Please upload a valid image file (JPG, JPEG, or PNG)"
          className := "status-message error"
          display := "block" } := by
    intro h
    exact ⟨(handleFile_rejected s file h).1, (handleFile_rejected s file h).2.2.1,
      (handleFile_rejected s file h).2.2.2⟩
  refine ⟨?_, hrej, ?_, ?_⟩
  · rintro ⟨ht, hs⟩
    rw [handleFile_valid s file ht hs]
    simp
  · constructor
    · rintro ⟨_, _, hpre⟩
      by_contra hv
      rw [(handleFile_rejected s file hv).2.1] at hpre
      have hlen := congrArg List.length hpre
      simp at hlen
    · rintro ⟨ht, hs⟩
      rw [handleFile_valid s file ht hs]
      simp
  · intro hne
    constructor
    · rintro ⟨hsel, _⟩
      by_contra hv
      exact hne ((hrej hv).1 ▸ hsel)
    · rintro ⟨ht, hs⟩
      rw [handleFile_valid s file ht hs]
      simp

/-- C1, at a 1000-byte PNG on the fresh page: it is accepted. -/
theorem handleFile_accepts_iff_witness :
    (handleFile exampleState smallPng).selectedFile = some smallPng ∧
    (handleFile exampleState smallPng).nextBtn.disabled = false ∧
    (handleFile exampleState smallPng).uploadStatus = exampleState.uploadStatus :=
  (handleFile_accepts_iff exampleState smallPng).1 ⟨by decide, by decide⟩

/-- C2, as stated, fails: a PNG of exactly `5242880` bytes is accepted. -/
theorem handleFile_accepts_5MiB :
    fiveMiBPng.size ≥ 5242880 ∧
    (handleFile exampleState fiveMiBPng).selectedFile = some fiveMiBPng ∧
    (handleFile exampleState fiveMiBPng).nextBtn.disabled = false ∧
    (handleFile exampleState fiveMiBPng).uploadStatus = exampleState.uploadStatus := by
  refine ⟨by decide, ?_⟩
  rw [handleFile_valid exampleState fiveMiBPng (by decide) (by decide)]
  simp

/-- C2, amended: a file that `handleFile` accepts (it changes the selection,
starts a preview or touches the Next button) has a size of at most `5242880`
bytes, and every file of more than `5242880` bytes is rejected: the
selection stays as it was (unset when it was unset), no preview is started,
the Next button is untouched and an `error` status is shown. -/
theorem handleFile_size_bound (s : State) (file : File) :
    (((handleFile s file).selectedFile ≠ s.selectedFile ∨
        (handleFile s file).previewReads ≠ s.previewReads ∨
        (handleFile s file).nextBtn ≠ s.nextBtn) → file.size ≤ 5242880) ∧
    (file.size > 5242880 →
      (handleFile s file).selectedFile = s.selectedFile ∧
      (s.selectedFile = none → (handleFile s file).selectedFile = none) ∧
      (handleFile s file).previewReads = s.previewReads ∧
      (handleFile s file).nextBtn = s.nextBtn ∧
      (handleFile s file).uploadStatus.className = "status-message error") := by
  have hms : maxSize = 5242880 := rfl
  rw [← hms]
  have hbig : file.size > maxSize →
      (handleFile s file).selectedFile = s.selectedFile ∧
      (handleFile s file).previewReads = s.previewReads ∧
      (handleFile s file).nextBtn = s.nextBtn ∧
      (handleFile s file).uploadStatus.className = "status-message error" := by
    intro hs
    obtain ⟨h1, h2, h3, h4⟩ :=
      handleFile_rejected s file (fun hv => absurd hv.2 (Nat.not_le.mpr hs))
    exact ⟨h1, h2, h3, by rw [h4]⟩
  constructor
  · intro hne
    by_contra hc
    obtain ⟨h1, h2, h3, _⟩ := hbig (Nat.not_le.mp hc)
    rcases hne with h | h | h
    · exact h h1
    · exact h h2
    · exact h h3
  · intro hs
    obtain ⟨h1, h2, h3, h4⟩ := hbig hs
    exact ⟨h1, fun h0 => h1.trans h0, h2, h3, h4⟩

/-- C2 amended, at a PNG of `5242881` bytes on the fresh page: rejected. -/
theorem handleFile_size_bound_witness :
    (handleFile exampleState overSizePng).selectedFile = exampleState.selectedFile ∧
    (exampleState.selectedFile = none →
      (handleFile exampleState overSizePng).selectedFile = none) ∧
    (handleFile exampleState overSizePng).previewReads = exampleState.previewReads ∧
    (handleFile exampleState overSizePng).nextBtn = exampleState.nextBtn ∧
    (handleFile exampleState overSizePng).uploadStatus.className = "status-message error" :=
  (handleFile_size_bound exampleState overSizePng).2 (by decide)

theorem getItem_setItem_same (l : List (String × String)) (k v : String) :
    getItem (setItem l k v) k = some v := by
  induction l with
  | nil => simp [setItem, getItem]
  | cons p rest ih =>
    obtain ⟨k', v'⟩ := p
    by_cases h : k' = k
    · simp [setItem, getItem, h]
    · simp [setItem, getItem, h, ih]

theorem getItem_setItem_other (l : List (String × String)) (k v k0 : String) (hk : k0 ≠ k) :
    getItem (setItem l k v) k0 = getItem l k0 := by
  induction l with
  | nil => simp [setItem, getItem, hk.symm]
  | cons p rest ih =>
    obtain ⟨k', v'⟩ := p
    by_cases h : k' = k
    · have h0 : ¬ k = k0 := fun e => hk e.symm
      have h1 : ¬ k' = k0 := fun e => hk (e ▸ h)
      subst h
      simp [setItem, getItem, h0]
    · by_cases h2 : k' = k0
      · subst h2
        simp [setItem, getItem, h]
      · simp [setItem, getItem, h, h2, ih]

theorem uploadDocumentCatch_eq (s : State) :
    uploadDocumentCatch s =
      { s with
        uploadStatus :=
          { textContent := "Upload failed. Please try again."
            className := "status-message error"
            display := "block" }
        nextBtn := { disabled := false, innerHTML := "Next: Video Recording →" } } := by
  simp [uploadDocumentCatch, showStatus]

/-- C6: `uploadDocument` with no selected file sends no request and leaves
`sessionStorage` alone; when a file is selected and the upload fails (`fetch`
rejects, the response is not ok, or parsing the body fails) `sessionStorage`
is unchanged, the status reads `Upload failed. Please try again.` as an
`error` and the Next button is enabled again with the label
`Next: Video Recording →`; `sessionStorage` changes only when a file is
selected and an ok response with a parsed body arrived, and then the three
keys `kycSessionId`, `documentType`, `documentPath` hold the new values. -/
theorem uploadDocument_session_writes (s : State) (net : FetchOutcome) :
    (s.selectedFile = none →
      (uploadDocument s net).requests = s.requests ∧
      (uploadDocument s net).sessionStorage = s.sessionStorage) ∧
    (s.selectedFile ≠ none →
      (net = FetchOutcome.rejected ∨
        (∃ statusText json, net = FetchOutcome.response false statusText json) ∨
        (∃ statusText, net = FetchOutcome.response true statusText none)) →
      (uploadDocument s net).sessionStorage = s.sessionStorage ∧
      (uploadDocument s net).uploadStatus =
        { textContent := "Upload failed. Please try again."
          className := "status-message error"
          display := "block" } ∧
      (uploadDocument s net).nextBtn =
        { disabled := false, innerHTML := "Next: Video Recording →" }) ∧
    ((uploadDocument s net).sessionStorage ≠ s.sessionStorage →
      s.selectedFile ≠ none ∧
      ∃ statusText result, net = FetchOutcome.response true statusText (some result)) ∧
    (∀ statusText result, s.selectedFile ≠ none →
      net = FetchOutcome.response true statusText (some result) →
      (uploadDocument s net).sessionStorage =
        setItem (setItem (setItem s.sessionStorage "kycSessionId" result.sessionId)
          "documentType" s.selectedDocType) "documentPath" result.documentPath ∧
      getItem (uploadDocument s net).sessionStorage "kycSessionId" = some result.sessionId ∧
      getItem (uploadDocument s net).sessionStorage "documentType" = some s.selectedDocType ∧
      getItem (uploadDocument s net).sessionStorage "documentPath" =
        some result.documentPath) := by
  have hnone : s.selectedFile = none →
      (uploadDocument s net).requests = s.requests ∧
      (uploadDocument s net).sessionStorage = s.sessionStorage := by
    intro h
    simp [uploadDocument, h, showStatus]
  have hfail : s.selectedFile ≠ none →
      (net = FetchOutcome.rejected ∨
        (∃ statusText json, net = FetchOutcome.response false statusText json) ∨
        (∃ statusText, net = FetchOutcome.response true statusText none)) →
      (uploadDocument s net).sessionStorage = s.sessionStorage ∧
      (uploadDocument s net).uploadStatus =
        { textContent := "Upload failed. Please try again."
          className := "status-message error"
          display := "block" } ∧
      (uploadDocument s net).nextBtn =
        { disabled := false, innerHTML := "Next: Video Recording →" } := by
    intro hsel hnet
    obtain ⟨file, hfile⟩ := Option.ne_none_iff_exists'.mp hsel
    rcases hnet with h | ⟨st, j, h⟩ | ⟨st, h⟩ <;> subst h <;>
      simp [uploadDocument, hfile, uploadDocumentCatch_eq, showStatus]
  refine ⟨hnone, hfail, ?_, ?_⟩
  · intro hne
    have hsel : s.selectedFile ≠ none := fun h => hne (hnone h).2
    refine ⟨hsel, ?_⟩
    cases net with
    | rejected => exact absurd (hfail hsel (Or.inl rfl)).1 hne
    | response ok st json =>
      cases ok with
      | false => exact absurd (hfail hsel (Or.inr (Or.inl ⟨st, json, rfl⟩))).1 hne
      | true =>
        cases json with
        | none => exact absurd (hfail hsel (Or.inr (Or.inr ⟨st, rfl⟩))).1 hne
        | some result => exact ⟨st, result, rfl⟩
  · intro st result hsel hnet
    obtain ⟨file, hfile⟩ := Option.ne_none_iff_exists'.mp hsel
    subst hnet
    have hst : (uploadDocument s (FetchOutcome.response true st (some result))).sessionStorage =
        setItem (setItem (setItem s.sessionStorage "kycSessionId" result.sessionId)
          "documentType" s.selectedDocType) "documentPath" result.documentPath := by
      simp [uploadDocument, hfile, showStatus]
    rw [hst]
    refine ⟨rfl, ?_, ?_, ?_⟩
    · rw [getItem_setItem_other _ _ _ _ (by decide), getItem_setItem_other _ _ _ _ (by decide),
        getItem_setItem_same]
    · rw [getItem_setItem_other _ _ _ _ (by decide), getItem_setItem_same]
    · rw [getItem_setItem_same]

/-- C6, on a page with a selected file when the server answers 500: nothing
is stored, the failure is shown and the button is back. -/
theorem uploadDocument_session_writes_witness :
    (uploadDocument selectedState serverError).sessionStorage = selectedState.sessionStorage ∧
    (uploadDocument selectedState serverError).uploadStatus =
      { textContent := "Upload failed. Please try again."
        className := "status-message error"
        display := "block" } ∧
    (uploadDocument selectedState serverError).nextBtn =
      { disabled := false, innerHTML := "Next: Video Recording →" } :=
  (uploadDocument_session_writes selectedState serverError).2.1 (by decide)
    (Or.inr (Or.inl ⟨"Internal Server Error", none, rfl⟩))

end Upload

/-! ## Theorems: `js/face-detection.js` -/

namespace FaceDetection

theorem updateLivenessCheck_livenessChecks {α : Type} (s : State α) (n : CheckName) (b : Bool) :
    (updateLivenessCheck s n b).livenessChecks = s.livenessChecks.set n b := by
  unfold updateLivenessCheck
  dsimp only
  split <;> rfl

theorem updateLivenessCheck_timeouts {α : Type} (s : State α) (n : CheckName) (b : Bool) :
    (updateLivenessCheck s n b).timeouts = s.timeouts := by
  unfold updateLivenessCheck
  dsimp only
  split <;> rfl

theorem updateLivenessCheck_previousEyeState {α : Type} (s : State α) (n : CheckName) (b : Bool) :
    (updateLivenessCheck s n b).previousEyeState = s.previousEyeState := by
  unfold updateLivenessCheck
  dsimp only
  split <;> rfl

theorem updateLivenessCheck_headPoseHistory {α : Type} (s : State α) (n : CheckName) (b : Bool) :
    (updateLivenessCheck s n b).headPoseHistory = s.headPoseHistory := by
  unfold updateLivenessCheck
  dsimp only
  split <;> rfl

/-- What `checkHeadPose` does once the three landmark points exist. -/
theorem checkHeadPose_some {α : Type} [Add α] [Sub α] [Div α] [HPow α ℕ α] [OfScientific α]
    [LT α] [∀ a b : α, Decidable (a < b)] (sqrt : α → α) (s : State α) (lm : Landmarks α)
    (noseTip leftJaw rightJaw : Point α)
    (hn : lm.getNose[3]? = some noseTip) (hl : lm.getJawOutline[0]? = some leftJaw)
    (hr : lm.getJawOutline[16]? = some rightJaw) :
    ∃ s', checkHeadPose sqrt s lm = some s' ∧
      s'.livenessChecks =
        { s.livenessChecks with
          turnedLeft := s.livenessChecks.turnedLeft ||
            decide (distance sqrt noseTip leftJaw / distance sqrt leftJaw rightJaw < 0.4)
          turnedRight := s.livenessChecks.turnedRight ||
            decide (distance sqrt noseTip leftJaw / distance sqrt leftJaw rightJaw > 0.6) } ∧
      s'.timeouts = s.timeouts ∧
      s'.previousEyeState = s.previousEyeState ∧
      s'.headPoseHistory =
        if (s.headPoseHistory ++
            [distance sqrt noseTip leftJaw / distance sqrt leftJaw rightJaw]).length > 10 then
          (s.headPoseHistory ++
            [distance sqrt noseTip leftJaw / distance sqrt leftJaw rightJaw]).tail
        else
          s.headPoseHistory ++ [distance sqrt noseTip leftJaw / distance sqrt leftJaw rightJaw] := by
  unfold checkHeadPose
  simp only [hn, hl, hr]
  generalize distance sqrt noseTip leftJaw / distance sqrt leftJaw rightJaw = ratio
  rcases s with ⟨⟨fd, bd, tl, tr⟩, pes, hist, ce, tos⟩
  refine ⟨_, rfl, ?_, ?_, ?_, ?_⟩
  · by_cases h1 : ratio < 0.4 <;> by_cases h2 : ratio > 0.6 <;>
      cases tl <;> cases tr <;>
      simp [h1, h2, updateLivenessCheck_livenessChecks, LivenessChecks.set]
  · by_cases h1 : ratio < 0.4 <;> by_cases h2 : ratio > 0.6 <;>
      cases tl <;> cases tr <;>
      simp [h1, h2, updateLivenessCheck_livenessChecks, updateLivenessCheck_timeouts,
        LivenessChecks.set]
  · by_cases h1 : ratio < 0.4 <;> by_cases h2 : ratio > 0.6 <;>
      cases tl <;> cases tr <;>
      simp [h1, h2, updateLivenessCheck_livenessChecks,
        updateLivenessCheck_previousEyeState, LivenessChecks.set]
  · by_cases h1 : ratio < 0.4 <;> by_cases h2 : ratio > 0.6 <;>
      cases tl <;> cases tr <;>
      simp [h1, h2, updateLivenessCheck_livenessChecks,
        updateLivenessCheck_headPoseHistory, LivenessChecks.set]

theorem checkHeadPose_blinkDetected {α : Type} [Add α] [Sub α] [Div α] [HPow α ℕ α]
    [OfScientific α] [LT α] [∀ a b : α, Decidable (a < b)] (sqrt : α → α) (s s' : State α)
    (lm : Landmarks α)
    (h : checkHeadPose sqrt s lm = some s') :
    s'.livenessChecks.blinkDetected = s.livenessChecks.blinkDetected ∧
    s'.timeouts = s.timeouts := by
  cases hn : lm.getNose[3]? with
  | none => simp [checkHeadPose, hn] at h
  | some noseTip =>
    cases hl : lm.getJawOutline[0]? with
    | none => simp [checkHeadPose, hn, hl] at h
    | some leftJaw =>
      cases hr : lm.getJawOutline[16]? with
      | none => simp [checkHeadPose, hn, hl, hr] at h
      | some rightJaw =>
        obtain ⟨s2, h2, hc, ht, _, _⟩ := checkHeadPose_some sqrt s lm noseTip leftJaw rightJaw hn hl hr
        rw [h] at h2
        simp only [Option.some.injEq] at h2
        subst h2
        exact ⟨by rw [hc], ht⟩

section Generic

variable {α : Type} [Add α] [Sub α] [Mul α] [Div α] [HPow α ℕ α] [OfNat α 2]
  [OfScientific α] [LT α] [∀ a b : α, Decidable (a < b)]

theorem checkBlink_blinkDetected (sqrt : α → α) (s s' : State α) (lm : Landmarks α)
    (h : checkBlink sqrt s lm = some s') :
    s'.livenessChecks = s.livenessChecks := by
  unfold checkBlink at h
  split at h
  · simp only [Option.some.injEq] at h
    subst h
    dsimp only
    split <;> rfl
  · exact absurd h (by simp)

theorem checkBlink_allClosed (sqrt : α → α) (s s' : State α) (lm : Landmarks α)
    (h : checkBlink sqrt s lm = some s') (hs : AllClosed s) : AllClosed s' := by
  unfold checkBlink at h
  split at h
  · simp only [Option.some.injEq] at h
    subst h
    intro p hp
    dsimp only at hp
    split at hp
    · rename_i hc
      simp only [Bool.and_eq_true] at hc
      simp only [List.mem_append, List.mem_singleton] at hp
      rcases hp with hp | hp
      · exact hs p hp
      · subst hp
        exact ⟨hc.1.2, hc.2⟩
    · exact hs p hp
  · exact absurd h (by simp)

theorem processDetections_blinkDetected (sqrt : α → α) (s : State α) (lm : Landmarks α)
    (hs : AllClosed s) :
    (processDetections sqrt s lm).livenessChecks.blinkDetected =
      s.livenessChecks.blinkDetected ∧
    AllClosed (processDetections sqrt s lm) := by
  have h1 : (updateLivenessCheck s CheckName.faceDetected true).livenessChecks.blinkDetected =
      s.livenessChecks.blinkDetected := by
    simp [updateLivenessCheck_livenessChecks, LivenessChecks.set]
  have h1c : AllClosed (updateLivenessCheck s CheckName.faceDetected true) := by
    intro p hp
    rw [updateLivenessCheck_timeouts] at hp
    exact hs p hp
  unfold processDetections
  dsimp only
  split
  · exact ⟨h1, h1c⟩
  · rename_i s2 h2
    have e2 := checkBlink_blinkDetected sqrt _ _ _ h2
    have c2 := checkBlink_allClosed sqrt _ _ _ h2 h1c
    split
    · exact ⟨by rw [e2]; exact h1, c2⟩
    · rename_i s3 h3
      obtain ⟨e3, t3⟩ := checkHeadPose_blinkDetected sqrt _ _ _ h3
      refine ⟨by rw [e3, e2]; exact h1, ?_⟩
      intro p hp
      rw [t3] at hp
      exact c2 p hp

theorem step_blinkDetected (sqrt : α → α) (s : State α) (e : Event α) (hs : AllClosed s) :
    (step sqrt s e).livenessChecks.blinkDetected = s.livenessChecks.blinkDetected ∧
    AllClosed (step sqrt s e) := by
  cases e with
  | face lm => exact processDetections_blinkDetected sqrt s lm hs
  | noFace =>
    refine ⟨by simp [step, updateLivenessCheck_livenessChecks, LivenessChecks.set], ?_⟩
    intro p hp
    simp only [step, updateLivenessCheck_timeouts] at hp
    exact hs p hp
  | timeout =>
    cases hrest : s.timeouts with
    | nil => simp only [step, hrest]; exact ⟨trivial, hs⟩
    | cons p rest =>
      obtain ⟨d, cb⟩ := p
      simp only [step, hrest]
      have hcb := hs (d, cb) (by rw [hrest]; exact List.mem_cons_self _ _)
      have hb : blinkTimeout { s with timeouts := rest } cb = { s with timeouts := rest } := by
        have h1 : cb.leftClosed = true := hcb.1
        simp [blinkTimeout, h1]
      rw [hb]
      refine ⟨rfl, ?_⟩
      intro p hp
      exact hs p (by rw [hrest]; exact List.mem_cons_of_mem _ hp)

/-- Whatever the frames and whenever the timeouts run, the detection loop
leaves `blinkDetected` as it found it. -/
theorem run_blinkDetected (sqrt : α → α) (events : List (Event α)) (s : State α)
    (hs : AllClosed s) :
    (run sqrt s events).livenessChecks.blinkDetected = s.livenessChecks.blinkDetected := by
  induction events generalizing s with
  | nil => rfl
  | cons e rest ih =>
    obtain ⟨h1, h2⟩ := step_blinkDetected sqrt s e hs
    have : run sqrt s (e :: rest) = run sqrt (step sqrt s e) rest := rfl
    rw [this, ih _ h2, h1]

/-- From the state in which the script is loaded, no sequence of frames and
timeouts ever sets `blinkDetected`. -/
theorem run_initial_blinkDetected (sqrt : α → α) (elements : CheckName → Option CheckElement)
    (events : List (Event α)) :
    (run sqrt (initialState elements) events).livenessChecks.blinkDetected = false := by
  rw [run_blinkDetected sqrt events (initialState elements)
    (by intro p hp; simp [initialState] at hp)]
  rfl

end Generic

end FaceDetection

namespace FaceDetection

theorem sqrt_of_sq (a b : ℝ) (hb : 0 ≤ b) (h : a = b ^ 2) : Real.sqrt a = b := by
  rw [h]
  exact Real.sqrt_sq hb

theorem ear_openEye :
    calculateEyeAspectRatio Real.sqrt (openEye : List (Point ℝ)) = some 0.4 := by
  have h16 : Real.sqrt 16 = 4 := sqrt_of_sq 16 4 (by norm_num) (by norm_num)
  have h100 : Real.sqrt 100 = 10 := sqrt_of_sq 100 10 (by norm_num) (by norm_num)
  simp only [calculateEyeAspectRatio, openEye, distance, List.map, List.getElem?_cons_succ,
    List.getElem?_cons_zero]
  norm_num [h16, h100]

theorem ear_closedEye :
    calculateEyeAspectRatio Real.sqrt (closedEye : List (Point ℝ)) = some 0.1 := by
  have h100 : Real.sqrt 100 = 10 := sqrt_of_sq 100 10 (by norm_num) (by norm_num)
  simp only [calculateEyeAspectRatio, closedEye, distance, List.map, List.getElem?_cons_succ,
    List.getElem?_cons_zero]
  norm_num [h100]

theorem checkBlink_open (s : State ℝ) (lm : Landmarks ℝ)
    (hl : lm.getLeftEye = openEye) (hr : lm.getRightEye = openEye) :
    checkBlink Real.sqrt s lm = some { s with previousEyeState := { left := true, right := true } } := by
  simp [checkBlink, hl, hr, ear_openEye, EAR_THRESHOLD]
  norm_num

theorem checkBlink_closed (s : State ℝ) (lm : Landmarks ℝ)
    (hl : lm.getLeftEye = closedEye) (hr : lm.getRightEye = closedEye)
    (hp : s.previousEyeState = { left := true, right := true }) :
    checkBlink Real.sqrt s lm =
      some { s with
        timeouts := s.timeouts ++ [(200, { leftClosed := true, rightClosed := true })]
        previousEyeState := { left := false, right := false } } := by
  simp [checkBlink, hl, hr, ear_closedEye, EAR_THRESHOLD, hp]
  norm_num

/-- C3 (what the code does): on the frames open, closed, open, the eye aspect
ratios are `0.4`, `0.1`, `0.4` against the threshold `0.2`; the closing frame
schedules the 200 ms callback with `leftClosed = rightClosed = true`, the
callback tests those two constants and so writes nothing, and
`blinkDetected` is still `false` after the third frame, both for
`checkBlink` alone and for the whole detection loop. -/
theorem checkBlink_misses_blink :
    calculateEyeAspectRatio Real.sqrt (openEye : List (Point ℝ)) = some 0.4 ∧
    calculateEyeAspectRatio Real.sqrt (closedEye : List (Point ℝ)) = some 0.1 ∧
    (∃ s1 s2 s3 : State ℝ,
      checkBlink Real.sqrt (initialState noElements) openFace = some s1 ∧
      s1.timeouts = [] ∧
      checkBlink Real.sqrt s1 closedFace = some s2 ∧
      s2.timeouts = [(200, { leftClosed := true, rightClosed := true })] ∧
      checkBlink Real.sqrt
        (blinkTimeout { s2 with timeouts := [] } { leftClosed := true, rightClosed := true })
        openFace = some s3 ∧
      s3.timeouts = [] ∧
      s3.previousEyeState = { left := true, right := true } ∧
      s3.livenessChecks.blinkDetected = false) ∧
    (run Real.sqrt (initialState noElements)
      (blinkFrames : List (Event ℝ))).livenessChecks.blinkDetected = false := by
  refine ⟨ear_openEye, ear_closedEye, ?_, run_initial_blinkDetected _ _ _⟩
  refine ⟨_, _, _, checkBlink_open _ _ rfl rfl, rfl, checkBlink_closed _ _ rfl rfl rfl, rfl,
    checkBlink_open _ _ rfl rfl, ?_, rfl, ?_⟩
  · simp [blinkTimeout]
  · simp [blinkTimeout, initialState]

theorem distance_real_pos (p q : Point ℝ) (h : p ≠ q) : 0 < distance Real.sqrt p q := by
  unfold distance
  apply Real.sqrt_pos.mpr
  have hx := sq_nonneg (q.x - p.x)
  have hy := sq_nonneg (q.y - p.y)
  by_contra hc
  have h0 : (q.x - p.x) ^ 2 + (q.y - p.y) ^ 2 = 0 := le_antisymm (not_lt.mp hc) (by positivity)
  have hx0 : (q.x - p.x) ^ 2 = 0 := by linarith
  have hy0 : (q.y - p.y) ^ 2 = 0 := by linarith
  have ex : q.x = p.x := by
    have := pow_eq_zero_iff (two_ne_zero) |>.mp hx0
    linarith
  have ey : q.y = p.y := by
    have := pow_eq_zero_iff (two_ne_zero) |>.mp hy0
    linarith
  apply h
  cases p
  cases q
  simp_all

/-- C4: for every landmark set that has the points `nose[3]`, `jaw[0]` and
`jaw[16]` (those with distinct jaw endpoints among them), in whatever
arithmetic the numbers are computed (the script's doubles, the reals),
`checkHeadPose` returns; the ratio it computes and appends to the history is
`sqrt((jaw[0].x - nose[3].x)^2 + (jaw[0].y - nose[3].y)^2) /
sqrt((jaw[16].x - jaw[0].x)^2 + (jaw[16].y - jaw[0].y)^2)`, that is
`distance(nose[3], jaw[0]) / distance(jaw[0], jaw[16])`; afterwards
`turnedLeft` is true iff it was already true or `ratio < 0.4`, `turnedRight`
is true iff it was already true or `ratio > 0.6`, the other two checks are
untouched, and when neither `ratio < 0.4` nor `ratio > 0.6` (so for
`0.4 ≤ ratio ≤ 0.6`) no liveness check changes. -/
theorem checkHeadPose_turns {α : Type} [Add α] [Sub α] [Div α] [HPow α ℕ α] [OfScientific α]
    [LT α] [∀ a b : α, Decidable (a < b)] (sqrt : α → α) (s : State α) (lm : Landmarks α)
    (noseTip leftJaw rightJaw : Point α)
    (hn : lm.getNose[3]? = some noseTip) (hl : lm.getJawOutline[0]? = some leftJaw)
    (hr : lm.getJawOutline[16]? = some rightJaw) :
    ∃ (s' : State α) (ratio : α),
      ratio =
        sqrt ((leftJaw.x - noseTip.x) ^ 2 + (leftJaw.y - noseTip.y) ^ 2) /
          sqrt ((rightJaw.x - leftJaw.x) ^ 2 + (rightJaw.y - leftJaw.y) ^ 2) ∧
      ratio = distance sqrt noseTip leftJaw / distance sqrt leftJaw rightJaw ∧
      checkHeadPose sqrt s lm = some s' ∧
      s'.headPoseHistory.getLast? = some ratio ∧
      (s'.livenessChecks.turnedLeft = true ↔
        s.livenessChecks.turnedLeft = true ∨ ratio < 0.4) ∧
      (s'.livenessChecks.turnedRight = true ↔
        s.livenessChecks.turnedRight = true ∨ ratio > 0.6) ∧
      s'.livenessChecks.faceDetected = s.livenessChecks.faceDetected ∧
      s'.livenessChecks.blinkDetected = s.livenessChecks.blinkDetected ∧
      (¬ ratio < 0.4 → ¬ ratio > 0.6 → s'.livenessChecks = s.livenessChecks) := by
  obtain ⟨s', hs', hc, _, _, hh⟩ := checkHeadPose_some sqrt s lm noseTip leftJaw rightJaw hn hl hr
  simp only [distance] at hc hh
  refine ⟨s', _, rfl, rfl, hs', ?_, ?_, ?_, ?_, ?_, ?_⟩
  · rw [hh]
    split
    · rename_i hlen
      cases hhist : s.headPoseHistory with
      | nil => simp [hhist] at hlen
      | cons a rest =>
        simp only [List.cons_append, List.tail_cons]
        exact List.getLast?_concat _
    · exact List.getLast?_concat _
  · rw [hc]; simp
  · rw [hc]; simp
  · rw [hc]
  · rw [hc]
  · intro h1 h2
    rw [hc, decide_eq_false h1, decide_eq_false h2]
    simp

/-- C4, in the script's doubles at `nose[3] = (2, 8)`, `jaw[0] = (0, 0)`,
`jaw[16] = (5, 20)`, where the exact quotient is `0.4` and the rounded one
need not be: the flags follow the ratio as the doubles compute it. -/
theorem checkHeadPose_turns_witness :
    ∃ (s' : State Float) (ratio : Float),
      ratio =
        Float.sqrt (((0 : Float) - 2) ^ 2 + ((0 : Float) - 8) ^ 2) /
          Float.sqrt (((5 : Float) - 0) ^ 2 + ((20 : Float) - 0) ^ 2) ∧
      ratio = distance Float.sqrt ⟨2, 8⟩ ⟨0, 0⟩ / distance Float.sqrt ⟨0, 0⟩ ⟨5, 20⟩ ∧
      checkHeadPose Float.sqrt (initialState noElements) thresholdFace = some s' ∧
      s'.headPoseHistory.getLast? = some ratio ∧
      (s'.livenessChecks.turnedLeft = true ↔
        (initialState noElements : State Float).livenessChecks.turnedLeft = true ∨
          ratio < 0.4) ∧
      (s'.livenessChecks.turnedRight = true ↔
        (initialState noElements : State Float).livenessChecks.turnedRight = true ∨
          ratio > 0.6) ∧
      s'.livenessChecks.faceDetected =
        (initialState noElements : State Float).livenessChecks.faceDetected ∧
      s'.livenessChecks.blinkDetected =
        (initialState noElements : State Float).livenessChecks.blinkDetected ∧
      (¬ ratio < 0.4 → ¬ ratio > 0.6 →
        s'.livenessChecks = (initialState noElements : State Float).livenessChecks) :=
  checkHeadPose_turns Float.sqrt (initialState noElements) thresholdFace ⟨2, 8⟩ ⟨0, 0⟩ ⟨5, 20⟩
    rfl rfl rfl

end FaceDetection

namespace FaceDetection

theorem calculateEyeAspectRatio_six {α : Type} [Add α] [Sub α] [Mul α] [Div α] [HPow α ℕ α]
    [OfNat α 2] (sqrt : α → α)
    (p0 p1 p2 p3 p4 p5 : Point α) :
    calculateEyeAspectRatio sqrt [p0, p1, p2, p3, p4, p5] =
      some ((distance sqrt p1 p5 + distance sqrt p2 p4) / (2 * distance sqrt p0 p3)) := by
  simp only [calculateEyeAspectRatio, List.map, List.getElem?_cons_succ,
    List.getElem?_cons_zero]

theorem distance_translate (t p q : Point ℝ) :
    distance Real.sqrt ⟨p.x + t.x, p.y + t.y⟩ ⟨q.x + t.x, q.y + t.y⟩ =
      distance Real.sqrt p q := by
  simp only [distance]
  congr 1
  ring

theorem distance_scale (k : ℝ) (hk : 0 < k) (p q : Point ℝ) :
    distance Real.sqrt ⟨k * p.x, k * p.y⟩ ⟨k * q.x, k * q.y⟩ = k * distance Real.sqrt p q := by
  simp only [distance]
  have e : (k * q.x - k * p.x) ^ 2 + (k * q.y - k * p.y) ^ 2 =
      k ^ 2 * ((q.x - p.x) ^ 2 + (q.y - p.y) ^ 2) := by ring
  rw [e, Real.sqrt_mul (sq_nonneg k), Real.sqrt_sq hk.le]

/-- C8: on six eye points with `p0 ≠ p3`, `calculateEyeAspectRatio` returns
`(dist(p1,p5) + dist(p2,p4)) / (2 * dist(p0,p3))` with `dist` the Euclidean
distance and a nonzero denominator; the value is the same after translating
all six points by one vector and after scaling them by one positive
factor. -/
theorem calculateEyeAspectRatio_ratio (p0 p1 p2 p3 p4 p5 : Point ℝ) (h : p0 ≠ p3) :
    calculateEyeAspectRatio Real.sqrt [p0, p1, p2, p3, p4, p5] =
      some ((Real.sqrt ((p5.x - p1.x) ^ 2 + (p5.y - p1.y) ^ 2) +
          Real.sqrt ((p4.x - p2.x) ^ 2 + (p4.y - p2.y) ^ 2)) /
        (2 * Real.sqrt ((p3.x - p0.x) ^ 2 + (p3.y - p0.y) ^ 2))) ∧
    2 * Real.sqrt ((p3.x - p0.x) ^ 2 + (p3.y - p0.y) ^ 2) ≠ 0 ∧
    (∀ t : Point ℝ,
      calculateEyeAspectRatio Real.sqrt
          ([p0, p1, p2, p3, p4, p5].map (fun p => ⟨p.x + t.x, p.y + t.y⟩)) =
        calculateEyeAspectRatio Real.sqrt [p0, p1, p2, p3, p4, p5]) ∧
    (∀ k : ℝ, 0 < k →
      calculateEyeAspectRatio Real.sqrt
          ([p0, p1, p2, p3, p4, p5].map (fun p => ⟨k * p.x, k * p.y⟩)) =
        calculateEyeAspectRatio Real.sqrt [p0, p1, p2, p3, p4, p5]) := by
  have hpos := distance_real_pos p0 p3 h
  refine ⟨calculateEyeAspectRatio_six _ _ _ _ _ _ _, ?_, ?_, ?_⟩
  · have : 0 < 2 * Real.sqrt ((p3.x - p0.x) ^ 2 + (p3.y - p0.y) ^ 2) :=
      mul_pos two_pos hpos
    exact this.ne'
  · intro t
    simp only [List.map, calculateEyeAspectRatio_six, distance_translate]
  · intro k hk
    simp only [List.map, calculateEyeAspectRatio_six, distance_scale k hk]
    rw [← mul_add, mul_left_comm 2 k, mul_div_mul_left _ _ hk.ne']

/-- C8, at the open example eye: its ratio is defined, and unchanged by
moving or resizing the eye. -/
theorem calculateEyeAspectRatio_ratio_witness :
    (⟨0, 0⟩ : Point ℝ) ≠ ⟨10, 0⟩ ∧
    (∀ k : ℝ, 0 < k →
      calculateEyeAspectRatio Real.sqrt
          ([(⟨0, 0⟩ : Point ℝ), ⟨3, 2⟩, ⟨7, 2⟩, ⟨10, 0⟩, ⟨7, -2⟩, ⟨3, -2⟩].map
            (fun p => ⟨k * p.x, k * p.y⟩)) =
        calculateEyeAspectRatio Real.sqrt
          [(⟨0, 0⟩ : Point ℝ), ⟨3, 2⟩, ⟨7, 2⟩, ⟨10, 0⟩, ⟨7, -2⟩, ⟨3, -2⟩]) :=
  ⟨by simp,
    (calculateEyeAspectRatio_ratio ⟨0, 0⟩ ⟨3, 2⟩ ⟨7, 2⟩ ⟨10, 0⟩ ⟨7, -2⟩ ⟨3, -2⟩ (by simp)).2.2.2⟩

/-- C5: `getLivenessResults` reports `allPassed` exactly when the four flags
are all `true`; `checks` is a new object (not the module's `livenessChecks`,
not one that existed before) holding the current four flags; objects that
existed before are untouched; and an assignment to a property of the
returned object changes that object and leaves `livenessChecks` as it
was. -/
theorem getLivenessResults_copy {α : Type} (s : State α) (heap : List LivenessChecks) :
    ((getLivenessResults s heap).1.allPassed = true ↔
      (s.livenessChecks.faceDetected = true ∧ s.livenessChecks.blinkDetected = true ∧
        s.livenessChecks.turnedLeft = true ∧ s.livenessChecks.turnedRight = true)) ∧
    (getLivenessResults s heap).1.checks ≠ Loc.moduleChecks ∧
    readChecks s heap (getLivenessResults s heap).1.checks = none ∧
    readChecks s (getLivenessResults s heap).2 (getLivenessResults s heap).1.checks =
      some s.livenessChecks ∧
    (∀ n, n < heap.length →
      readChecks s (getLivenessResults s heap).2 (Loc.fresh n) = readChecks s heap (Loc.fresh n)) ∧
    (∀ (checkName : CheckName) (value : Bool),
      (writeChecks s (getLivenessResults s heap).2 (getLivenessResults s heap).1.checks
        checkName value).1.livenessChecks = s.livenessChecks ∧
      readChecks
        (writeChecks s (getLivenessResults s heap).2 (getLivenessResults s heap).1.checks
          checkName value).1
        (writeChecks s (getLivenessResults s heap).2 (getLivenessResults s heap).1.checks
          checkName value).2
        (getLivenessResults s heap).1.checks = some (s.livenessChecks.set checkName value) ∧
      readChecks
        (writeChecks s (getLivenessResults s heap).2 (getLivenessResults s heap).1.checks
          checkName value).1
        (writeChecks s (getLivenessResults s heap).2 (getLivenessResults s heap).1.checks
          checkName value).2
        Loc.moduleChecks = some s.livenessChecks) := by
  refine ⟨?_, ?_, ?_, ?_, ?_, ?_⟩
  · simp [getLivenessResults, LivenessChecks.values]
  · simp [getLivenessResults]
  · simp [getLivenessResults, readChecks]
  · simp [getLivenessResults, readChecks]
  · intro n hn
    simp [getLivenessResults, readChecks, List.getElem?_append_left hn]
  · intro checkName value
    simp [getLivenessResults, readChecks, writeChecks, List.modify_eq_set_get?]

end FaceDetection

/-! ## Theorems: `js/video-recording.js` -/

namespace VideoRecording

theorem showStatusMessage_eq (s : State) (m t : String) :
    showStatusMessage s m t =
      { s with page := { s.page with statusMessage :=
          { textContent := m, className := "status-message " ++ t, display := "block" } } } :=
  rfl

theorem stopRecording_idle (s : State) (h : s.isRecording = false) : stopRecording s = s := by
  unfold stopRecording
  split
  · rfl
  · simp [h]

theorem autoStop_idle (s : State) (h : s.isRecording = false) : autoStop s = s := by
  simp [autoStop, h]

theorem stopRecording_recording (s : State) (recorder : MediaRecorder)
    (hr : s.mediaRecorder = some recorder) (h : s.isRecording = true) :
    (stopRecording s).isRecording = false ∧
    (stopRecording s).mediaRecorder = some { recorder with state := RecorderState.inactive } ∧
    (stopRecording s).timerInterval = none ∧
    (stopRecording s).page.submitBtnDisabled = false ∧
    (stopRecording s).timeouts = s.timeouts ∧
    (∀ id, s.timerInterval = some id → (stopRecording s).intervals = s.intervals.erase id) := by
  unfold stopRecording
  simp only [hr, h]
  cases ht : s.timerInterval <;> simp [stopTimer, showStatusMessage_eq, ht]

theorem step_recorderPresent (s : State) (e : Event) (h : RecorderPresent s) :
    RecorderPresent (step s e) := by
  intro hrec
  cases e with
  | startCamera granted =>
    cases granted <;> simp_all [step, startCamera, showStatusMessage_eq, RecorderPresent]
  | loadedmetadata => simp_all [step, onloadedmetadata, showStatusMessage_eq, RecorderPresent]
  | startRecording env =>
    simp only [step, startRecording] at hrec ⊢
    split_ifs at hrec ⊢ <;>
      simp_all [startRecordingCatch, showStatusMessage_eq, startTimer, RecorderPresent]
  | stopRecording =>
    simp only [step] at hrec ⊢
    cases hm : s.mediaRecorder with
    | none =>
      simp only [stopRecording, hm] at hrec ⊢
      exact absurd (h hrec) (by simp [hm])
    | some recorder =>
      cases hi : s.isRecording with
      | false => rw [stopRecording_idle s hi] at hrec; simp [hi] at hrec
      | true => rw [(stopRecording_recording s recorder hm hi).1] at hrec; simp at hrec
  | timeoutFires =>
    simp only [step] at hrec ⊢
    cases ht : s.timeouts with
    | nil => simp only [ht] at hrec ⊢; exact h hrec
    | cons due rest =>
      simp only [ht] at hrec ⊢
      split_ifs at hrec ⊢
      · cases hi : s.isRecording with
        | false =>
          rw [autoStop_idle _ (by simpa using hi)] at hrec
          simp [hi] at hrec
        | true =>
          obtain ⟨recorder, hm⟩ := h hi
          have e : autoStop { s with timeouts := rest } =
              stopRecording { s with timeouts := rest } := by simp [autoStop, hi]
          rw [e, (stopRecording_recording { s with timeouts := rest } recorder hm hi).1] at hrec
          simp at hrec
      · exact h hrec
  | intervalTick id =>
    simp only [step] at hrec ⊢
    split_ifs at hrec ⊢ <;> simp_all [timerTick, RecorderPresent]
  | dataavailable size =>
    simp only [step, ondataavailable] at hrec ⊢
    split_ifs at hrec ⊢ <;> simp_all [RecorderPresent]
  | recorderStop =>
    simp only [step, handleRecordingComplete] at hrec ⊢
    split_ifs at hrec ⊢ <;> simp_all [showStatusMessage_eq, RecorderPresent]
  | elapse ms => simp_all [step, RecorderPresent]

theorem run_recorderPresent (events : List Event) (s : State) (h : RecorderPresent s) :
    RecorderPresent (run s events) := by
  induction events generalizing s with
  | nil => exact h
  | cons e rest ih => exact ih (step s e) (step_recorderPresent s e h)

theorem initialState_recorderPresent (page : Page) (now : Nat) :
    RecorderPresent (initialState page now) := by
  intro h
  simp [initialState] at h

/-- C7: `MAX_RECORDING_DURATION` is 30; a `startRecording` that succeeds sets
`isRecording` and schedules the auto-stop `30 * 1000` ms after the current
time; in every state the page can reach, when that timeout comes due and
runs while `isRecording` holds, the recording is stopped (`isRecording` is
false, the recorder inactive, the timer interval cleared, the submit button
enabled); a timeout never runs before it is due; and in any state where
`isRecording` is false the timeout callback and `stopRecording` change
nothing. -/
theorem autoStop_limits_recording :
    MAX_RECORDING_DURATION = 30 ∧
    (∀ (s : State) (env : RecorderEnv), s.videoStream = true →
      env.constructorThrows = false → env.startThrows = false →
      (startRecording s env).isRecording = true ∧
      (startRecording s env).timerInterval = some s.nextTimerId ∧
      s.nextTimerId ∈ (startRecording s env).intervals ∧
      (∃ recorder, (startRecording s env).mediaRecorder = some recorder ∧
        recorder.state = RecorderState.recording) ∧
      (startRecording s env).timeouts = s.timeouts ++ [s.now + 30 * 1000]) ∧
    (∀ (page : Page) (now : Nat) (events : List Event) (due : Nat) (rest : List Nat),
      (run (initialState page now) events).timeouts = due :: rest →
      due ≤ (run (initialState page now) events).now →
      (run (initialState page now) events).isRecording = true →
      (step (run (initialState page now) events) Event.timeoutFires).isRecording = false ∧
      (∃ recorder,
        (step (run (initialState page now) events) Event.timeoutFires).mediaRecorder =
          some recorder ∧ recorder.state = RecorderState.inactive) ∧
      (step (run (initialState page now) events) Event.timeoutFires).timerInterval = none ∧
      (step (run (initialState page now) events) Event.timeoutFires).page.submitBtnDisabled =
        false ∧
      (step (run (initialState page now) events) Event.timeoutFires).timeouts = rest ∧
      (∀ id, (run (initialState page now) events).timerInterval = some id →
        (step (run (initialState page now) events) Event.timeoutFires).intervals =
          (run (initialState page now) events).intervals.erase id)) ∧
    (∀ (s : State) (due : Nat) (rest : List Nat), s.timeouts = due :: rest → s.now < due →
      step s Event.timeoutFires = s) ∧
    (∀ s : State, s.isRecording = false →
      autoStop s = s ∧ stopRecording s = s ∧ step s Event.stopRecording = s ∧
      ∀ (due : Nat) (rest : List Nat), s.timeouts = due :: rest → due ≤ s.now →
        step s Event.timeoutFires = { s with timeouts := rest }) := by
  refine ⟨rfl, ?_, ?_, ?_, ?_⟩
  · intro s env hv hc hs
    simp [startRecording, hv, hc, hs, showStatusMessage_eq, startTimer, MAX_RECORDING_DURATION]
  · intro page now events due rest ht hdue hrec
    obtain ⟨recorder, hm⟩ :=
      run_recorderPresent events _ (initialState_recorderPresent page now) hrec
    generalize run (initialState page now) events = s at ht hdue hrec hm
    have e : step s Event.timeoutFires = stopRecording { s with timeouts := rest } := by
      simp [step, ht, hdue, autoStop, hrec]
    obtain ⟨h1, h2, h3, h4, h5, h6⟩ :=
      stopRecording_recording { s with timeouts := rest } recorder hm hrec
    rw [e]
    exact ⟨h1, ⟨_, h2, rfl⟩, h3, h4, h5, h6⟩
  · intro s due rest ht hlt
    simp [step, ht, Nat.not_le.mpr hlt]
  · intro s h
    refine ⟨autoStop_idle s h, stopRecording_idle s h, stopRecording_idle s h, ?_⟩
    intro due rest ht hdue
    simp [step, ht, hdue, autoStop, h]

/-- C7, on the example page: the camera is started, a recording begun at
time 0 and 30000 ms pass; the auto-stop is then due and stops the
recording. -/
theorem autoStop_limits_recording_witness :
    (run (initialState examplePage 0) recordingEvents).timeouts = [30000] ∧
    30000 ≤ (run (initialState examplePage 0) recordingEvents).now ∧
    (run (initialState examplePage 0) recordingEvents).isRecording = true ∧
    (step (run (initialState examplePage 0) recordingEvents) Event.timeoutFires).isRecording =
      false ∧
    (∃ recorder,
      (step (run (initialState examplePage 0) recordingEvents) Event.timeoutFires).mediaRecorder =
        some recorder ∧ recorder.state = RecorderState.inactive) ∧
    (step (run (initialState examplePage 0) recordingEvents) Event.timeoutFires).timerInterval =
      none ∧
    (step (run (initialState examplePage 0) recordingEvents)
      Event.timeoutFires).page.submitBtnDisabled = false ∧
    (step (run (initialState examplePage 0) recordingEvents) Event.timeoutFires).timeouts = [] ∧
    (∀ id, (run (initialState examplePage 0) recordingEvents).timerInterval = some id →
      (step (run (initialState examplePage 0) recordingEvents) Event.timeoutFires).intervals =
        (run (initialState examplePage 0) recordingEvents).intervals.erase id) :=
  ⟨rfl, by decide, rfl,
    autoStop_limits_recording.2.2.1 examplePage 0 recordingEvents 30000 [] rfl (by decide) rfl⟩

end VideoRecording
